import Mathlib

/-!
# DoubleSlipWeakeningFrictionNoHeal: a shallow embedding

Embedding of `src/friction/DoubleSlipWeakeningFrictionNoHeal.cc`, and of the
friction coefficient of the parabolic variant, of which only the header
`src/friction/ParabolicCohesiveZoneNoHeal.hh` is available.

Modelling conventions.

* `PylithScalar` is modelled by the exact rationals `ℚ`; rounding of the
  machine floating-point type is outside the model, and `x / 0` is `0`.
  Properties that rounding, underflow or NaN decide (exact round trips
  through the scales, exact slope identities, monotonicity and bounds next
  to a breakpoint) are outside the model and are not stated here.
* A `PylithScalar*` argument is modelled by the memory it points to, a map
  from offsets to scalars (`Nat → ℚ`); a store `a[i] = v` is
  `Function.update a i v`.  These array pointers are never null in the
  model, so `assert(ptr)` on them always passes.  The member pointer
  `_normalizer` is an `Option`, `none` when null.
* An `int` count argument is an `Int`; the statements call the evaluation
  functions with the counts `6` and `2` that the assertions require.
* A `pylith::scalar_array` is a `List ℚ`; `size()` is `List.length`.
* `assert(c)` with `c` false aborts the call.  A thrown
  `std::runtime_error` is recorded with the text streamed into the message
  and the scalar streamed after it.
* `PetscLogFlops` only feeds a performance counter and is left out.
-/

set_option linter.unusedVariables false

namespace DoubleSlipWeakeningFrictionNoHeal

/-- Scalar type of the simulation (`PylithScalar`), modelled exactly. -/
abbrev PylithScalar := ℚ

/-! ## Local constants (namespace `_DoubleSlipWeakeningFrictionNoHeal`) -/

/-- Number of physical properties. -/
def _DoubleSlipWeakeningFrictionNoHeal.numProperties : Int := 6

/-- Friction model parameters (names of the `ParamDescription` entries). -/
def _DoubleSlipWeakeningFrictionNoHeal.properties : List String :=
  ["static_coefficient", "transition_coefficient", "dynamic_coefficient",
   "transition_slip_distance", "final_slip_distance", "cohesion"]

/-- Number of state variables. -/
def _DoubleSlipWeakeningFrictionNoHeal.numStateVars : Int := 2

/-- State variables (names of the `ParamDescription` entries). -/
def _DoubleSlipWeakeningFrictionNoHeal.stateVars : List String :=
  ["cumulative_slip", "previous_slip"]

/-- Number of values expected in the spatial database for the properties. -/
def _DoubleSlipWeakeningFrictionNoHeal.numDBProperties : Int := 6

/-- Values expected in the spatial database. -/
def _DoubleSlipWeakeningFrictionNoHeal.dbProperties : List String :=
  ["static_coefficient", "transition_coefficient", "dynamic_coefficient",
   "transition_slip_distance", "final_slip_distance", "cohesion"]

/-- Number of values expected in the spatial database for the state. -/
def _DoubleSlipWeakeningFrictionNoHeal.numDBStateVars : Int := 2

/-- State variables expected in the spatial database. -/
def _DoubleSlipWeakeningFrictionNoHeal.dbStateVars : List String :=
  ["cumulative_slip", "previous_slip"]

/-! ## Index tables -/

def p_coefS : Nat := 0
def p_coefT : Nat := p_coefS + 1
def p_coefD : Nat := p_coefT + 1
def p_distT : Nat := p_coefD + 1
def p_distF : Nat := p_distT + 1
def p_cohesion : Nat := p_distF + 1

def db_coefS : Nat := 0
def db_coefT : Nat := db_coefS + 1
def db_coefD : Nat := db_coefT + 1
def db_distT : Nat := db_coefD + 1
def db_distF : Nat := db_distT + 1
def db_cohesion : Nat := db_distF + 1

def s_slipCum : Nat := 0
def s_slipPrev : Nat := s_slipCum + 1

def db_slipCum : Nat := 0
def db_slipPrev : Nat := db_slipCum + 1

/-! ## Outcomes of a call -/

/-- How a `void` member function that may `assert` or `throw` ends.
`runtime_error text value` is a `std::runtime_error` whose message is
`text`, then `value` as streamed by `operator<<`, then a newline. -/
inductive Status where
  | ok : Status
  | assertion_failed : Status
  | runtime_error (text : String) (value : PylithScalar) : Status
  deriving DecidableEq

/-! ## Properties from the spatial database -/

def msg_coefS : String :=
  "Spatial database returned nonpositive value for static coefficient of friction.\nStatic coefficient of friction: "

def msg_coefT : String :=
  "Spatial database returned nonpositive value for transition coefficient of friction.\nTransition coefficient of friction: "

def msg_coefD : String :=
  "Spatial database returned nonpositive value for dynamic coefficient of friction.\nDynamic coefficient of friction: "

def msg_distT : String :=
  "Spatial database returned nonpositive value for transition slip weakening distance.\nTransition slip weakening distance: "

def msg_distF : String :=
  "Spatial database returned nonpositive value for final slip weakening distance.\nFinal slip weakening distance: "

def msg_cohesion : String :=
  "Spatial database returned negative value for cohesion.\nCohesion: "

/-- Compute properties from values in spatial database.  The result is how
the call ended together with the contents of `propValues` at that point. -/
def _dbToProperties (propValues : Nat → PylithScalar) (dbValues : List PylithScalar) :
    Status × (Nat → PylithScalar) :=
  let numDBValues : Int := dbValues.length
  if _DoubleSlipWeakeningFrictionNoHeal.numDBProperties ≠ numDBValues then
    (Status.assertion_failed, propValues)
  else
    let coefS := dbValues.getD db_coefS 0
    let coefT := dbValues.getD db_coefT 0
    let coefD := dbValues.getD db_coefD 0
    let distT := dbValues.getD db_distT 0
    let distF := dbValues.getD db_distF 0
    let cohesion := dbValues.getD db_cohesion 0
    if coefS ≤ 0 then (Status.runtime_error msg_coefS coefS, propValues)
    else if coefT ≤ 0 then (Status.runtime_error msg_coefT coefT, propValues)
    else if coefD ≤ 0 then (Status.runtime_error msg_coefD coefD, propValues)
    else if distT ≤ 0 then (Status.runtime_error msg_distT distT, propValues)
    else if distF ≤ 0 then (Status.runtime_error msg_distF distF, propValues)
    else if cohesion < 0 then (Status.runtime_error msg_cohesion cohesion, propValues)
    else
      let v1 := Function.update propValues p_coefS coefS
      let v2 := Function.update v1 p_coefT coefT
      let v3 := Function.update v2 p_coefD coefD
      let v4 := Function.update v3 p_distT distT
      let v5 := Function.update v4 p_distF distF
      let v6 := Function.update v5 p_cohesion cohesion
      (Status.ok, v6)

/-! ## Unit scaling -/

/-- Modelled from the spec: the unit-normalization service
(`spatialdata::units::Nondimensional`), which is not part of this
repository.  It holds the three scales; `nondimensionalize` divides by the
scale and `dimensionalize` multiplies by it. -/
structure Nondimensional where
  lengthScale : PylithScalar
  timeScale : PylithScalar
  pressureScale : PylithScalar
  deriving DecidableEq

/-- Modelled from the spec: `nondimensionalize(value, scale)` of the
unit-normalization service. -/
def Nondimensional.nondimensionalize (_n : Nondimensional) (value scale : PylithScalar) :
    PylithScalar :=
  value / scale

/-- Modelled from the spec: `dimensionalize(value, scale)` of the
unit-normalization service. -/
def Nondimensional.dimensionalize (_n : Nondimensional) (value scale : PylithScalar) :
    PylithScalar :=
  value * scale

/-- Nondimensionalize properties.  `_normalizer` is the member pointer of the
base class, `none` when it is null. -/
def _nondimProperties (_normalizer : Option Nondimensional)
    (values : Nat → PylithScalar) (nvalues : Int) : Status × (Nat → PylithScalar) :=
  match _normalizer with
  | none => (Status.assertion_failed, values)
  | some n =>
    if nvalues ≠ _DoubleSlipWeakeningFrictionNoHeal.numProperties then
      (Status.assertion_failed, values)
    else
      let lengthScale := n.lengthScale
      let timeScale := n.timeScale
      let pressureScale := n.pressureScale
      let velocityScale := lengthScale / timeScale
      let v1 := Function.update values p_distT (n.nondimensionalize (values p_distT) lengthScale)
      let v2 := Function.update v1 p_distF (n.nondimensionalize (v1 p_distF) lengthScale)
      let v3 := Function.update v2 p_cohesion (n.nondimensionalize (v2 p_cohesion) pressureScale)
      (Status.ok, v3)

/-- Dimensionalize properties. -/
def _dimProperties (_normalizer : Option Nondimensional)
    (values : Nat → PylithScalar) (nvalues : Int) : Status × (Nat → PylithScalar) :=
  match _normalizer with
  | none => (Status.assertion_failed, values)
  | some n =>
    if nvalues ≠ _DoubleSlipWeakeningFrictionNoHeal.numProperties then
      (Status.assertion_failed, values)
    else
      let lengthScale := n.lengthScale
      let timeScale := n.timeScale
      let pressureScale := n.pressureScale
      let velocityScale := lengthScale / timeScale
      let v1 := Function.update values p_distT (n.dimensionalize (values p_distT) lengthScale)
      let v2 := Function.update v1 p_distF (n.dimensionalize (v1 p_distF) lengthScale)
      let v3 := Function.update v2 p_cohesion (n.dimensionalize (v2 p_cohesion) pressureScale)
      (Status.ok, v3)

/-! ## State variables -/

/-- Compute state variables from values in spatial database. -/
def _dbToStateVars (stateValues : Nat → PylithScalar) (dbValues : List PylithScalar) :
    Status × (Nat → PylithScalar) :=
  let numDBValues : Int := dbValues.length
  if _DoubleSlipWeakeningFrictionNoHeal.numDBStateVars ≠ numDBValues then
    (Status.assertion_failed, stateValues)
  else
    let cumulativeSlip := dbValues.getD db_slipCum 0
    let previousSlip := dbValues.getD db_slipPrev 0
    let v1 := Function.update stateValues s_slipCum cumulativeSlip
    let v2 := Function.update v1 s_slipPrev previousSlip
    (Status.ok, v2)

/-- Nondimensionalize state variables. -/
def _nondimStateVars (_normalizer : Option Nondimensional)
    (values : Nat → PylithScalar) (nvalues : Int) : Status × (Nat → PylithScalar) :=
  match _normalizer with
  | none => (Status.assertion_failed, values)
  | some n =>
    if nvalues ≠ _DoubleSlipWeakeningFrictionNoHeal.numStateVars then
      (Status.assertion_failed, values)
    else
      let lengthScale := n.lengthScale
      let timeScale := n.timeScale
      let velocityScale := lengthScale / timeScale
      let v1 := Function.update values s_slipCum (n.nondimensionalize (values s_slipCum) lengthScale)
      let v2 := Function.update v1 s_slipPrev (n.nondimensionalize (v1 s_slipPrev) lengthScale)
      (Status.ok, v2)

/-- Dimensionalize state variables. -/
def _dimStateVars (_normalizer : Option Nondimensional)
    (values : Nat → PylithScalar) (nvalues : Int) : Status × (Nat → PylithScalar) :=
  match _normalizer with
  | none => (Status.assertion_failed, values)
  | some n =>
    if nvalues ≠ _DoubleSlipWeakeningFrictionNoHeal.numStateVars then
      (Status.assertion_failed, values)
    else
      let lengthScale := n.lengthScale
      let timeScale := n.timeScale
      let velocityScale := lengthScale / timeScale
      let v1 := Function.update values s_slipCum (n.dimensionalize (values s_slipCum) lengthScale)
      let v2 := Function.update v1 s_slipPrev (n.dimensionalize (v1 s_slipPrev) lengthScale)
      (Status.ok, v2)

/-! ## Friction law -/

/-- The `if / else if / else` chain of `_calcFriction` that sets `mu_f`, as a
function of the trial cumulative slip `slipCum`. -/
def mu_f (properties : Nat → PylithScalar) (slipCum : PylithScalar) : PylithScalar :=
  if slipCum < properties p_distT then
    properties p_coefS -
      (properties p_coefS - properties p_coefT) * slipCum / properties p_distT
  else if slipCum < properties p_distF then
    properties p_coefT -
      (properties p_coefT - properties p_coefD) *
        (slipCum - properties p_distT) / (properties p_distF - properties p_distT)
  else
    properties p_coefD

/-- Compute friction from properties and state variables.  `none` is an
aborted call (a failed `assert`). -/
def _calcFriction (t slip slipRate normalTraction : PylithScalar)
    (properties : Nat → PylithScalar) (numProperties : Int)
    (stateVars : Nat → PylithScalar) (numStateVars : Int) : Option PylithScalar :=
  if _DoubleSlipWeakeningFrictionNoHeal.numProperties ≠ numProperties then none
  else if numStateVars = 0 then none
  else if _DoubleSlipWeakeningFrictionNoHeal.numStateVars ≠ numStateVars then none
  else
    if normalTraction ≤ 0 then
      let slipPrev := stateVars s_slipPrev
      let slipCum := stateVars s_slipCum + |slip - slipPrev|
      some (-(mu_f properties slipCum) * normalTraction + properties p_cohesion)
    else
      some (properties p_cohesion)

/-- Compute derivative of friction with slip from properties and state
variables.  `none` is an aborted call (a failed `assert`). -/
def _calcFrictionDeriv (t slip slipRate normalTraction : PylithScalar)
    (properties : Nat → PylithScalar) (numProperties : Int)
    (stateVars : Nat → PylithScalar) (numStateVars : Int) : Option PylithScalar :=
  if _DoubleSlipWeakeningFrictionNoHeal.numProperties ≠ numProperties then none
  else if numStateVars = 0 then none
  else if _DoubleSlipWeakeningFrictionNoHeal.numStateVars ≠ numStateVars then none
  else
    if normalTraction ≤ 0 then
      let slipPrev := stateVars s_slipPrev
      let slipCum := stateVars s_slipCum + |slip - slipPrev|
      if slipCum < properties p_distT then
        some (normalTraction * (properties p_coefS - properties p_coefT) / properties p_distT)
      else if slipCum < properties p_distF then
        some (normalTraction * (properties p_coefT - properties p_coefD) /
          (properties p_distF - properties p_distT))
      else
        some 0
    else
      some 0

/-- Update state variables (for next time step).  The result is how the call
ended together with the contents of `stateVars` at that point. -/
def _updateStateVars (t slip slipRate normalTraction : PylithScalar)
    (stateVars : Nat → PylithScalar) (numStateVars : Int)
    (properties : Nat → PylithScalar) (numProperties : Int) :
    Status × (Nat → PylithScalar) :=
  if _DoubleSlipWeakeningFrictionNoHeal.numProperties ≠ numProperties then
    (Status.assertion_failed, stateVars)
  else if numStateVars = 0 then (Status.assertion_failed, stateVars)
  else if _DoubleSlipWeakeningFrictionNoHeal.numStateVars ≠ numStateVars then
    (Status.assertion_failed, stateVars)
  else
    let tolerance : PylithScalar := 0
    if slipRate ≥ tolerance then
      let slipPrev := stateVars s_slipPrev
      let v1 := Function.update stateVars s_slipPrev slip
      let v2 := Function.update v1 s_slipCum (v1 s_slipCum + |slip - slipPrev|)
      (Status.ok, v2)
    else
      let v1 := Function.update stateVars s_slipPrev slip
      let v2 := Function.update v1 s_slipCum 0
      (Status.ok, v2)

/-! ## Auxiliary notions used in the statements -/

/-- Memory holding the given scalars at offsets `0, 1, ...` and `0` beyond. -/
def ofList (l : List PylithScalar) : Nat → PylithScalar :=
  fun i => l.getD i 0

/-- Trial cumulative slip `D` formed by `_calcFriction` and
`_calcFrictionDeriv` from the state and the trial slip. -/
def trialSlipCum (stateVars : Nat → PylithScalar) (slip : PylithScalar) : PylithScalar :=
  stateVars s_slipCum + |slip - stateVars s_slipPrev|

/-- Number of the branch of the `if / else if / else` chain on the trial
cumulative slip that `_calcFriction` and `_calcFrictionDeriv` take: `1` for
`slipCum < distT`, `2` for the `else if` branch, `3` for the final `else`. -/
def segment (properties : Nat → PylithScalar) (slipCum : PylithScalar) : Nat :=
  if slipCum < properties p_distT then 1
  else if slipCum < properties p_distF then 2
  else 3

/-- The two arrays of a fault vertex that the member functions receive by
pointer. -/
structure VertexArrays where
  properties : Nat → PylithScalar
  stateVars : Nat → PylithScalar

/-- Arguments that the evaluation and update functions receive by value. -/
structure CallArgs where
  t : PylithScalar
  slip : PylithScalar
  slipRate : PylithScalar
  normalTraction : PylithScalar

/-- The body of a member function as it acts on the two arrays of a vertex:
from the arrays before the call to the value it yields and the arrays after
it. -/
abbrev Exec (α : Type) := VertexArrays → α × VertexArrays

/-- Yield a value; the arrays are not touched. -/
def Exec.ret {α : Type} (a : α) : Exec α :=
  fun m => (a, m)

/-- Sequencing: run `x`, then run `f` on the value of `x`, starting from the
arrays that `x` left. -/
def Exec.andThen {α β : Type} (x : Exec α) (f : α → Exec β) : Exec β :=
  fun m => f (x m).1 (x m).2

/-- The read `properties[i]`. -/
def Exec.loadProperty (i : Nat) : Exec PylithScalar :=
  fun m => (m.properties i, m)

/-- The read `stateVars[i]`. -/
def Exec.loadStateVar (i : Nat) : Exec PylithScalar :=
  fun m => (m.stateVars i, m)

/-- The store `properties[i] = v`. -/
def Exec.storeProperty (i : Nat) (v : PylithScalar) : Exec Unit :=
  fun m => ((), { properties := Function.update m.properties i v, stateVars := m.stateVars })

/-- The store `stateVars[i] = v`. -/
def Exec.storeStateVar (i : Nat) (v : PylithScalar) : Exec Unit :=
  fun m => ((), { properties := m.properties, stateVars := Function.update m.stateVars i v })

/-- The body of `_calcFriction`, statement by statement, with every access to
`properties[..]` and `stateVars[..]` as a read of the arrays of the vertex.
The value is `none` for an aborted call (a failed `assert`). -/
def exec_calcFriction (t slip slipRate normalTraction : PylithScalar)
    (numProperties numStateVars : Int) : Exec (Option PylithScalar) :=
  if _DoubleSlipWeakeningFrictionNoHeal.numProperties ≠ numProperties then Exec.ret none
  else if numStateVars = 0 then Exec.ret none
  else if _DoubleSlipWeakeningFrictionNoHeal.numStateVars ≠ numStateVars then Exec.ret none
  else
    if normalTraction ≤ 0 then
      Exec.andThen (Exec.loadStateVar s_slipPrev) fun slipPrev =>
      Exec.andThen (Exec.loadStateVar s_slipCum) fun cum =>
      let slipCum := cum + |slip - slipPrev|
      Exec.andThen
        (Exec.andThen (Exec.loadProperty p_distT) fun distT =>
          if slipCum < distT then
            Exec.andThen (Exec.loadProperty p_coefS) fun coefS =>
            Exec.andThen (Exec.loadProperty p_coefT) fun coefT =>
            Exec.ret (coefS - (coefS - coefT) * slipCum / distT)
          else
            Exec.andThen (Exec.loadProperty p_distF) fun distF =>
            if slipCum < distF then
              Exec.andThen (Exec.loadProperty p_coefT) fun coefT =>
              Exec.andThen (Exec.loadProperty p_coefD) fun coefD =>
              Exec.ret (coefT - (coefT - coefD) * (slipCum - distT) / (distF - distT))
            else
              Exec.loadProperty p_coefD)
        fun mu =>
      Exec.andThen (Exec.loadProperty p_cohesion) fun cohesion =>
      Exec.ret (some (-mu * normalTraction + cohesion))
    else
      Exec.andThen (Exec.loadProperty p_cohesion) fun cohesion =>
      Exec.ret (some cohesion)

/-- The body of `_calcFrictionDeriv`, statement by statement, with every access
to `properties[..]` and `stateVars[..]` as a read of the arrays of the vertex.
The value is `none` for an aborted call (a failed `assert`). -/
def exec_calcFrictionDeriv (t slip slipRate normalTraction : PylithScalar)
    (numProperties numStateVars : Int) : Exec (Option PylithScalar) :=
  if _DoubleSlipWeakeningFrictionNoHeal.numProperties ≠ numProperties then Exec.ret none
  else if numStateVars = 0 then Exec.ret none
  else if _DoubleSlipWeakeningFrictionNoHeal.numStateVars ≠ numStateVars then Exec.ret none
  else
    if normalTraction ≤ 0 then
      Exec.andThen (Exec.loadStateVar s_slipPrev) fun slipPrev =>
      Exec.andThen (Exec.loadStateVar s_slipCum) fun cum =>
      let slipCum := cum + |slip - slipPrev|
      Exec.andThen (Exec.loadProperty p_distT) fun distT =>
      if slipCum < distT then
        Exec.andThen (Exec.loadProperty p_coefS) fun coefS =>
        Exec.andThen (Exec.loadProperty p_coefT) fun coefT =>
        Exec.ret (some (normalTraction * (coefS - coefT) / distT))
      else
        Exec.andThen (Exec.loadProperty p_distF) fun distF =>
        if slipCum < distF then
          Exec.andThen (Exec.loadProperty p_coefT) fun coefT =>
          Exec.andThen (Exec.loadProperty p_coefD) fun coefD =>
          Exec.ret (some (normalTraction * (coefT - coefD) / (distF - distT)))
        else
          Exec.ret (some 0)
    else
      Exec.ret (some 0)

/-- The body of `_updateStateVars`, statement by statement, with every access
to `stateVars[..]` as a read or a store on the arrays of the vertex.  The
value is how the call ended. -/
def exec_updateStateVars (t slip slipRate normalTraction : PylithScalar)
    (numStateVars numProperties : Int) : Exec Status :=
  if _DoubleSlipWeakeningFrictionNoHeal.numProperties ≠ numProperties then
    Exec.ret Status.assertion_failed
  else if numStateVars = 0 then Exec.ret Status.assertion_failed
  else if _DoubleSlipWeakeningFrictionNoHeal.numStateVars ≠ numStateVars then
    Exec.ret Status.assertion_failed
  else
    let tolerance : PylithScalar := 0
    if slipRate ≥ tolerance then
      Exec.andThen (Exec.loadStateVar s_slipPrev) fun slipPrev =>
      Exec.andThen (Exec.storeStateVar s_slipPrev slip) fun _ =>
      Exec.andThen (Exec.loadStateVar s_slipCum) fun cum =>
      Exec.andThen (Exec.storeStateVar s_slipCum (cum + |slip - slipPrev|)) fun _ =>
      Exec.ret Status.ok
    else
      Exec.andThen (Exec.storeStateVar s_slipPrev slip) fun _ =>
      Exec.andThen (Exec.storeStateVar s_slipCum 0) fun _ =>
      Exec.ret Status.ok

/-- One trial evaluation of the nonlinear iteration: the friction or its
derivative, at the given arguments. -/
inductive Evaluation where
  | friction (a : CallArgs) : Evaluation
  | frictionDeriv (a : CallArgs) : Evaluation

/-- The call an evaluation stands for. -/
def Evaluation.call (e : Evaluation) (m : VertexArrays) : Option PylithScalar × VertexArrays :=
  match e with
  | Evaluation.friction a => exec_calcFriction a.t a.slip a.slipRate a.normalTraction 6 2 m
  | Evaluation.frictionDeriv a =>
    exec_calcFrictionDeriv a.t a.slip a.slipRate a.normalTraction 6 2 m

/-- Run a sequence of trial evaluations one after the other on the arrays of
a vertex: the values returned, in order, and the arrays after the last call. -/
def runEvaluations (es : List Evaluation) (m : VertexArrays) :
    List (Option PylithScalar) × VertexArrays :=
  match es with
  | [] => ([], m)
  | e :: rest =>
    let r := e.call m
    let rs := runEvaluations rest r.2
    (r.1 :: rs.1, rs.2)

/-- Divisors of the divisions that `_calcFriction` performs on the path it
takes, in the order it performs them: `_calcFriction` with every quotient
`a / b` replaced by a record of `b`. -/
def divisors_calcFriction (t slip slipRate normalTraction : PylithScalar)
    (properties : Nat → PylithScalar) (numProperties : Int)
    (stateVars : Nat → PylithScalar) (numStateVars : Int) : List PylithScalar :=
  if _DoubleSlipWeakeningFrictionNoHeal.numProperties ≠ numProperties then []
  else if numStateVars = 0 then []
  else if _DoubleSlipWeakeningFrictionNoHeal.numStateVars ≠ numStateVars then []
  else
    if normalTraction ≤ 0 then
      let slipPrev := stateVars s_slipPrev
      let slipCum := stateVars s_slipCum + |slip - slipPrev|
      if slipCum < properties p_distT then [properties p_distT]
      else if slipCum < properties p_distF then [properties p_distF - properties p_distT]
      else []
    else
      []

/-- Divisors of the divisions that `_calcFrictionDeriv` performs on the path
it takes: `_calcFrictionDeriv` with every quotient `a / b` replaced by a
record of `b`. -/
def divisors_calcFrictionDeriv (t slip slipRate normalTraction : PylithScalar)
    (properties : Nat → PylithScalar) (numProperties : Int)
    (stateVars : Nat → PylithScalar) (numStateVars : Int) : List PylithScalar :=
  if _DoubleSlipWeakeningFrictionNoHeal.numProperties ≠ numProperties then []
  else if numStateVars = 0 then []
  else if _DoubleSlipWeakeningFrictionNoHeal.numStateVars ≠ numStateVars then []
  else
    if normalTraction ≤ 0 then
      let slipPrev := stateVars s_slipPrev
      let slipCum := stateVars s_slipCum + |slip - slipPrev|
      if slipCum < properties p_distT then [properties p_distT]
      else if slipCum < properties p_distF then [properties p_distF - properties p_distT]
      else []
    else
      []

end DoubleSlipWeakeningFrictionNoHeal

namespace ParabolicCohesiveZoneNoHeal

/-- Modelled from the spec: the friction coefficient of the parabolic variant.
Only the header `ParabolicCohesiveZoneNoHeal.hh` is available, its
implementation file is not; the law is the one of the specification and of the
class comment of the header: `coefS - (coefS - coefD)·((D - D_s)/D_w)²` for
`D ≤ D_s + D_w`, and `coefD` for `D > D_s + D_w`. -/
def mu_f (coefS coefD D_s D_w D : ℚ) : ℚ :=
  if D ≤ D_s + D_w then coefS - (coefS - coefD) * ((D - D_s) / D_w) ^ 2
  else coefD

end ParabolicCohesiveZoneNoHeal

namespace DoubleSlipWeakeningFrictionNoHeal

/-! ## Shared lemmas -/

theorem idx_vals :
    p_coefS = 0 ∧ p_coefT = 1 ∧ p_coefD = 2 ∧ p_distT = 3 ∧ p_distF = 4 ∧ p_cohesion = 5 ∧
    db_coefS = 0 ∧ db_coefT = 1 ∧ db_coefD = 2 ∧ db_distT = 3 ∧ db_distF = 4 ∧
    db_cohesion = 5 ∧ s_slipCum = 0 ∧ s_slipPrev = 1 ∧ db_slipCum = 0 ∧ db_slipPrev = 1 := by
  decide

theorem calcFriction_compression (t slip slipRate normalTraction : PylithScalar)
    (properties stateVars : Nat → PylithScalar) (h : normalTraction ≤ 0) :
    _calcFriction t slip slipRate normalTraction properties 6 stateVars 2 =
      some (-(mu_f properties (trialSlipCum stateVars slip)) * normalTraction +
        properties p_cohesion) := by
  simp [_calcFriction, trialSlipCum, _DoubleSlipWeakeningFrictionNoHeal.numProperties,
    _DoubleSlipWeakeningFrictionNoHeal.numStateVars, h]

theorem length_eq_six {l : List PylithScalar} (h : l.length = 6) :
    ∃ a b c d e f, l = [a, b, c, d, e, f] := by
  match l, h with
  | [a, b, c, d, e, f], _ => exact ⟨a, b, c, d, e, f, rfl⟩

theorem dbToProperties_length {propValues : Nat → PylithScalar} {dbValues : List PylithScalar}
    (h : (_dbToProperties propValues dbValues).1 ≠ Status.assertion_failed) :
    dbValues.length = 6 := by
  by_contra hne
  apply h
  have : ¬ (6 : Int) = (dbValues.length : Int) := by
    intro h6
    exact hne (by exact_mod_cast h6.symm)
  simp [_dbToProperties, _DoubleSlipWeakeningFrictionNoHeal.numDBProperties, this]

theorem dbToProperties_six (propValues : Nat → PylithScalar)
    (coefS coefT coefD distT distF cohesion : PylithScalar) :
    _dbToProperties propValues [coefS, coefT, coefD, distT, distF, cohesion] =
      if coefS ≤ 0 then (Status.runtime_error msg_coefS coefS, propValues)
      else if coefT ≤ 0 then (Status.runtime_error msg_coefT coefT, propValues)
      else if coefD ≤ 0 then (Status.runtime_error msg_coefD coefD, propValues)
      else if distT ≤ 0 then (Status.runtime_error msg_distT distT, propValues)
      else if distF ≤ 0 then (Status.runtime_error msg_distF distF, propValues)
      else if cohesion < 0 then (Status.runtime_error msg_cohesion cohesion, propValues)
      else (Status.ok,
        Function.update (Function.update (Function.update (Function.update (Function.update
          (Function.update propValues 0 coefS) 1 coefT) 2 coefD) 3 distT) 4 distF)
          5 cohesion) := by
  simp [_dbToProperties, _DoubleSlipWeakeningFrictionNoHeal.numDBProperties, idx_vals]

theorem dbToProperties_ofList (coefS coefT coefD distT distF cohesion : PylithScalar)
    (h1 : 0 < coefS) (h2 : 0 < coefT) (h3 : 0 < coefD) (h4 : 0 < distT) (h5 : 0 < distF)
    (h6 : 0 ≤ cohesion) :
    _dbToProperties (ofList []) [coefS, coefT, coefD, distT, distF, cohesion] =
      (Status.ok, ofList [coefS, coefT, coefD, distT, distF, cohesion]) := by
  rw [dbToProperties_six]
  simp only [not_le.mpr h1, not_le.mpr h2, not_le.mpr h3, not_le.mpr h4, not_le.mpr h5,
    not_lt.mpr h6, if_false]
  congr 1
  funext i
  rcases i with _ | _ | _ | _ | _ | _ | i <;> simp [ofList, Function.update_apply]

theorem accepted_pos {propValues properties : Nat → PylithScalar}
    {dbValues : List PylithScalar}
    (h : _dbToProperties propValues dbValues = (Status.ok, properties)) :
    0 < properties p_coefS ∧ 0 < properties p_coefT ∧ 0 < properties p_coefD ∧
      0 < properties p_distT ∧ 0 < properties p_distF ∧ 0 ≤ properties p_cohesion := by
  have hst : (_dbToProperties propValues dbValues).1 = Status.ok := by rw [h]
  have hlen : dbValues.length = 6 := dbToProperties_length (by rw [hst]; decide)
  obtain ⟨a, b, c, d, e, f, rfl⟩ := length_eq_six hlen
  rw [dbToProperties_six] at h
  by_cases h1 : a ≤ 0
  · simp [h1] at h
  by_cases h2 : b ≤ 0
  · simp [h1, h2] at h
  by_cases h3 : c ≤ 0
  · simp [h1, h2, h3] at h
  by_cases h4 : d ≤ 0
  · simp [h1, h2, h3, h4] at h
  by_cases h5 : e ≤ 0
  · simp [h1, h2, h3, h4, h5] at h
  by_cases h6 : f < 0
  · simp [h1, h2, h3, h4, h5, h6] at h
  simp only [h1, h2, h3, h4, h5, h6, if_false, Prod.mk.injEq, true_and] at h
  subst h
  simp [idx_vals, Function.update_apply]
  exact ⟨not_le.mp h1, not_le.mp h2, not_le.mp h3, not_le.mp h4, not_le.mp h5, not_lt.mp h6⟩

theorem calcFrictionDeriv_compression (t slip slipRate normalTraction : PylithScalar)
    (properties stateVars : Nat → PylithScalar) (h : normalTraction ≤ 0) :
    _calcFrictionDeriv t slip slipRate normalTraction properties 6 stateVars 2 =
      some (if trialSlipCum stateVars slip < properties p_distT then
          normalTraction * (properties p_coefS - properties p_coefT) / properties p_distT
        else if trialSlipCum stateVars slip < properties p_distF then
          normalTraction * (properties p_coefT - properties p_coefD) /
            (properties p_distF - properties p_distT)
        else 0) := by
  simp only [_calcFrictionDeriv, trialSlipCum, _DoubleSlipWeakeningFrictionNoHeal.numProperties,
    _DoubleSlipWeakeningFrictionNoHeal.numStateVars, h]
  split_ifs <;> simp_all

/-! ## Friction evaluation -/

/-- C1: in compression (`normalTraction ≤ 0`), with
`D = stateVars[s_slipCum] + |slip - stateVars[s_slipPrev]|`, `_calcFriction`
returns `-mu * normalTraction + cohesion`, where `mu` is the first-segment
expression if `D < distT`, the second-segment expression if
`distT ≤ D < distF`, and `coefD` otherwise. -/
theorem C1_calcFriction_compression (t slip slipRate normalTraction : PylithScalar)
    (properties stateVars : Nat → PylithScalar) (h : normalTraction ≤ 0) :
    ∃ mu : PylithScalar,
      _calcFriction t slip slipRate normalTraction properties 6 stateVars 2 =
        some (-mu * normalTraction + properties p_cohesion) ∧
      (stateVars s_slipCum + |slip - stateVars s_slipPrev| < properties p_distT →
        mu = properties p_coefS - (properties p_coefS - properties p_coefT) *
          (stateVars s_slipCum + |slip - stateVars s_slipPrev|) / properties p_distT) ∧
      (properties p_distT ≤ stateVars s_slipCum + |slip - stateVars s_slipPrev| ∧
          stateVars s_slipCum + |slip - stateVars s_slipPrev| < properties p_distF →
        mu = properties p_coefT - (properties p_coefT - properties p_coefD) *
          (stateVars s_slipCum + |slip - stateVars s_slipPrev| - properties p_distT) /
            (properties p_distF - properties p_distT)) ∧
      (¬ stateVars s_slipCum + |slip - stateVars s_slipPrev| < properties p_distT ∧
          ¬ (properties p_distT ≤ stateVars s_slipCum + |slip - stateVars s_slipPrev| ∧
            stateVars s_slipCum + |slip - stateVars s_slipPrev| < properties p_distF) →
        mu = properties p_coefD) := by
  refine ⟨mu_f properties (trialSlipCum stateVars slip),
    calcFriction_compression t slip slipRate normalTraction properties stateVars h, ?_, ?_, ?_⟩
  · intro h1
    simp [mu_f, trialSlipCum, h1]
  · rintro ⟨h1, h2⟩
    simp [mu_f, trialSlipCum, not_lt.mpr h1, h2]
  · rintro ⟨h1, h2⟩
    have h3 : ¬ stateVars s_slipCum + |slip - stateVars s_slipPrev| < properties p_distF :=
      fun h3 => h2 ⟨not_lt.mp h1, h3⟩
    simp [mu_f, trialSlipCum, h1, h3]

/-- C1, the scenario of the specification: `coefS = 0.6`, `coefT = 0.4`,
`coefD = 0.2`, `distT = 0.1`, `distF = 0.5`, `cohesion = 0`, state
`{cum = 0, prev = 0}`, `normalTraction = -10`, `slip = 0.05` gives friction
`5`. -/
theorem C1_calcFriction_compression_witness :
    _calcFriction 0 0.05 0 (-10) (ofList [0.6, 0.4, 0.2, 0.1, 0.5, 0]) 6 (ofList [0, 0]) 2 =
      some 5 := by
  obtain ⟨mu, hres, h1, -, -⟩ := C1_calcFriction_compression 0 0.05 0 (-10)
    (ofList [0.6, 0.4, 0.2, 0.1, 0.5, 0]) (ofList [0, 0]) (by norm_num)
  have hmu := h1 (by norm_num [ofList, idx_vals, abs_of_nonneg])
  rw [hres, hmu]
  norm_num [ofList, idx_vals, abs_of_nonneg]

/-- C2: in tension (`normalTraction > 0`) `_calcFriction` returns exactly
`properties[p_cohesion]` and `_calcFrictionDeriv` returns exactly `0`,
whatever the slip, slip rate, properties and state. -/
theorem C2_tension (t slip slipRate normalTraction : PylithScalar)
    (properties stateVars : Nat → PylithScalar) (h : 0 < normalTraction) :
    _calcFriction t slip slipRate normalTraction properties 6 stateVars 2 =
        some (properties p_cohesion) ∧
      _calcFrictionDeriv t slip slipRate normalTraction properties 6 stateVars 2 = some 0 := by
  have h' : ¬ normalTraction ≤ 0 := not_le.mpr h
  constructor
  · simp [_calcFriction, _DoubleSlipWeakeningFrictionNoHeal.numProperties,
      _DoubleSlipWeakeningFrictionNoHeal.numStateVars, h']
  · simp [_calcFrictionDeriv, _DoubleSlipWeakeningFrictionNoHeal.numProperties,
      _DoubleSlipWeakeningFrictionNoHeal.numStateVars, h']

/-- C2 at a concrete input: cohesion `3`, `normalTraction = 10`, a state far
into the weakening range. -/
theorem C2_tension_witness :
    _calcFriction 0 7 1 10 (ofList [0.6, 0.4, 0.2, 0.1, 0.5, 3]) 6 (ofList [2, 1]) 2 = some 3 ∧
      _calcFrictionDeriv 0 7 1 10 (ofList [0.6, 0.4, 0.2, 0.1, 0.5, 3]) 6 (ofList [2, 1]) 2 =
        some 0 := by
  have h := C2_tension 0 7 1 10 (ofList [0.6, 0.4, 0.2, 0.1, 0.5, 3]) (ofList [2, 1])
    (by norm_num)
  simpa [ofList, idx_vals] using h

/-- C3 as stated fails: with `distT = 2`, `distF = 1` and `D = 3/2` we have
`D ≥ distF`, yet `_calcFrictionDeriv` takes the first branch (`D < distT`) and
returns `-1/2`, not `0`. -/
theorem C3_calcFrictionDeriv_counterexample :
    (-1 : PylithScalar) ≤ 0 ∧
      ofList [0, 0] s_slipCum + |3 / 2 - ofList [0, 0] s_slipPrev| ≥
        ofList [3, 2, 1, 2, 1, 0] p_distF ∧
      _calcFrictionDeriv 0 (3 / 2) 0 (-1) (ofList [3, 2, 1, 2, 1, 0]) 6 (ofList [0, 0]) 2 =
        some (-1 / 2) ∧
      _calcFrictionDeriv 0 (3 / 2) 0 (-1) (ofList [3, 2, 1, 2, 1, 0]) 6 (ofList [0, 0]) 2 ≠
        some 0 := by
  refine ⟨by norm_num, ?_, ?_, ?_⟩
  · norm_num [ofList, idx_vals, abs_of_nonneg]
  · norm_num [_calcFrictionDeriv, _DoubleSlipWeakeningFrictionNoHeal.numProperties,
      _DoubleSlipWeakeningFrictionNoHeal.numStateVars, ofList, idx_vals, abs_of_nonneg]
  · norm_num [_calcFrictionDeriv, _DoubleSlipWeakeningFrictionNoHeal.numProperties,
      _DoubleSlipWeakeningFrictionNoHeal.numStateVars, ofList, idx_vals, abs_of_nonneg]

/-- C3 (amended): in compression, with
`D = stateVars[s_slipCum] + |slip - stateVars[s_slipPrev]|`,
`_calcFrictionDeriv` returns `normalTraction*(coefS - coefT)/distT` if
`D < distT`, `normalTraction*(coefT - coefD)/(distF - distT)` if
`distT ≤ D < distF`, and `0` if `D ≥ distT` and `D ≥ distF`. -/
theorem C3_calcFrictionDeriv_compression (t slip slipRate normalTraction : PylithScalar)
    (properties stateVars : Nat → PylithScalar) (h : normalTraction ≤ 0) :
    (stateVars s_slipCum + |slip - stateVars s_slipPrev| < properties p_distT →
      _calcFrictionDeriv t slip slipRate normalTraction properties 6 stateVars 2 =
        some (normalTraction * (properties p_coefS - properties p_coefT) /
          properties p_distT)) ∧
    (properties p_distT ≤ stateVars s_slipCum + |slip - stateVars s_slipPrev| ∧
        stateVars s_slipCum + |slip - stateVars s_slipPrev| < properties p_distF →
      _calcFrictionDeriv t slip slipRate normalTraction properties 6 stateVars 2 =
        some (normalTraction * (properties p_coefT - properties p_coefD) /
          (properties p_distF - properties p_distT))) ∧
    (properties p_distT ≤ stateVars s_slipCum + |slip - stateVars s_slipPrev| ∧
        properties p_distF ≤ stateVars s_slipCum + |slip - stateVars s_slipPrev| →
      _calcFrictionDeriv t slip slipRate normalTraction properties 6 stateVars 2 = some 0) := by
  refine ⟨?_, ?_, ?_⟩
  · intro h1
    simp [_calcFrictionDeriv, _DoubleSlipWeakeningFrictionNoHeal.numProperties,
      _DoubleSlipWeakeningFrictionNoHeal.numStateVars, h, h1]
  · rintro ⟨h1, h2⟩
    simp [_calcFrictionDeriv, _DoubleSlipWeakeningFrictionNoHeal.numProperties,
      _DoubleSlipWeakeningFrictionNoHeal.numStateVars, h, not_lt.mpr h1, h2]
  · rintro ⟨h1, h2⟩
    simp [_calcFrictionDeriv, _DoubleSlipWeakeningFrictionNoHeal.numProperties,
      _DoubleSlipWeakeningFrictionNoHeal.numStateVars, h, not_lt.mpr h1, not_lt.mpr h2]

/-- C3 (amended) on the properties of the specification's scenario, state
`{cum = 0, prev = 0}`, `normalTraction = -10`: slip `0.05` lies in the first
segment (derivative `-20`), slip `0.3` in the second (derivative `-5`), slip
`1` beyond both distances (derivative `0`). -/
theorem C3_calcFrictionDeriv_compression_witness :
    _calcFrictionDeriv 0 0.05 0 (-10) (ofList [0.6, 0.4, 0.2, 0.1, 0.5, 0]) 6
        (ofList [0, 0]) 2 = some (-20) ∧
      _calcFrictionDeriv 0 0.3 0 (-10) (ofList [0.6, 0.4, 0.2, 0.1, 0.5, 0]) 6
        (ofList [0, 0]) 2 = some (-5) ∧
      _calcFrictionDeriv 0 1 0 (-10) (ofList [0.6, 0.4, 0.2, 0.1, 0.5, 0]) 6
        (ofList [0, 0]) 2 = some 0 := by
  refine ⟨?_, ?_, ?_⟩
  · have h := (C3_calcFrictionDeriv_compression 0 0.05 0 (-10)
      (ofList [0.6, 0.4, 0.2, 0.1, 0.5, 0]) (ofList [0, 0]) (by norm_num)).1
      (by norm_num [ofList, idx_vals, abs_of_nonneg])
    rw [h]
    norm_num [ofList, idx_vals]
  · have h := (C3_calcFrictionDeriv_compression 0 0.3 0 (-10)
      (ofList [0.6, 0.4, 0.2, 0.1, 0.5, 0]) (ofList [0, 0]) (by norm_num)).2.1
      (by norm_num [ofList, idx_vals, abs_of_nonneg])
    rw [h]
    norm_num [ofList, idx_vals]
  · exact (C3_calcFrictionDeriv_compression 0 1 0 (-10)
      (ofList [0.6, 0.4, 0.2, 0.1, 0.5, 0]) (ofList [0, 0]) (by norm_num)).2.2
      (by norm_num [ofList, idx_vals, abs_of_nonneg])

/-! ## State advance -/

/-- C4: for `slipRate ≥ 0` (zero included) `_updateStateVars` stores
`prev' = slip` and `cum' = cum + |slip - prev|`, with `prev` the value before
the call, and writes nothing else. -/
theorem C4_updateStateVars_accumulate (t slip slipRate normalTraction : PylithScalar)
    (stateVars properties : Nat → PylithScalar) (h : 0 ≤ slipRate) :
    (_updateStateVars t slip slipRate normalTraction stateVars 2 properties 6).1 = Status.ok ∧
      (_updateStateVars t slip slipRate normalTraction stateVars 2 properties 6).2 s_slipPrev =
        slip ∧
      (_updateStateVars t slip slipRate normalTraction stateVars 2 properties 6).2 s_slipCum =
        stateVars s_slipCum + |slip - stateVars s_slipPrev| ∧
      ∀ i, i ≠ s_slipCum → i ≠ s_slipPrev →
        (_updateStateVars t slip slipRate normalTraction stateVars 2 properties 6).2 i =
          stateVars i := by
  refine ⟨?_, ?_, ?_, ?_⟩
  · simp [_updateStateVars, _DoubleSlipWeakeningFrictionNoHeal.numProperties,
      _DoubleSlipWeakeningFrictionNoHeal.numStateVars, h]
  · simp [_updateStateVars, _DoubleSlipWeakeningFrictionNoHeal.numProperties,
      _DoubleSlipWeakeningFrictionNoHeal.numStateVars, h, idx_vals, Function.update_apply]
  · simp [_updateStateVars, _DoubleSlipWeakeningFrictionNoHeal.numProperties,
      _DoubleSlipWeakeningFrictionNoHeal.numStateVars, h, idx_vals, Function.update_apply]
  · intro i h1 h2
    simp [_updateStateVars, _DoubleSlipWeakeningFrictionNoHeal.numProperties,
      _DoubleSlipWeakeningFrictionNoHeal.numStateVars, h, Function.update_apply, h1, h2]

/-- C4, the scenario of the specification: `{cum = 0.05, prev = 0}`, slip
`0.08`, `slipRate = 1e-6` gives `prev' = 0.08`, `cum' = 0.13`. -/
theorem C4_updateStateVars_accumulate_witness :
    (_updateStateVars 0 0.08 1e-6 0 (ofList [0.05, 0]) 2 (ofList []) 6).1 = Status.ok ∧
      (_updateStateVars 0 0.08 1e-6 0 (ofList [0.05, 0]) 2 (ofList []) 6).2 s_slipPrev = 0.08 ∧
      (_updateStateVars 0 0.08 1e-6 0 (ofList [0.05, 0]) 2 (ofList []) 6).2 s_slipCum = 0.13 := by
  obtain ⟨h1, h2, h3, -⟩ := C4_updateStateVars_accumulate 0 0.08 1e-6 0 (ofList [0.05, 0])
    (ofList []) (by norm_num)
  refine ⟨h1, h2, ?_⟩
  rw [h3]
  norm_num [ofList, idx_vals, abs_of_nonneg]

/-- C5: for `slipRate < 0`, however small, `_updateStateVars` stores
`prev' = slip` and `cum' = 0`, whatever the previous `cum` and `prev`, and
writes nothing else. -/
theorem C5_updateStateVars_reset (t slip slipRate normalTraction : PylithScalar)
    (stateVars properties : Nat → PylithScalar) (h : slipRate < 0) :
    (_updateStateVars t slip slipRate normalTraction stateVars 2 properties 6).1 = Status.ok ∧
      (_updateStateVars t slip slipRate normalTraction stateVars 2 properties 6).2 s_slipPrev =
        slip ∧
      (_updateStateVars t slip slipRate normalTraction stateVars 2 properties 6).2 s_slipCum =
        0 ∧
      ∀ i, i ≠ s_slipCum → i ≠ s_slipPrev →
        (_updateStateVars t slip slipRate normalTraction stateVars 2 properties 6).2 i =
          stateVars i := by
  have h' : ¬ 0 ≤ slipRate := not_le.mpr h
  refine ⟨?_, ?_, ?_, ?_⟩
  · simp [_updateStateVars, _DoubleSlipWeakeningFrictionNoHeal.numProperties,
      _DoubleSlipWeakeningFrictionNoHeal.numStateVars, h']
  · simp [_updateStateVars, _DoubleSlipWeakeningFrictionNoHeal.numProperties,
      _DoubleSlipWeakeningFrictionNoHeal.numStateVars, h', idx_vals, Function.update_apply]
  · simp [_updateStateVars, _DoubleSlipWeakeningFrictionNoHeal.numProperties,
      _DoubleSlipWeakeningFrictionNoHeal.numStateVars, h', idx_vals, Function.update_apply]
  · intro i h1 h2
    simp [_updateStateVars, _DoubleSlipWeakeningFrictionNoHeal.numProperties,
      _DoubleSlipWeakeningFrictionNoHeal.numStateVars, h', Function.update_apply, h1, h2]

/-- C5, the scenario of the specification: `{cum = 0.05, prev = 0}`, slip
`0.05`, `slipRate = -1e-6` gives `prev' = 0.05`, `cum' = 0`. -/
theorem C5_updateStateVars_reset_witness :
    (_updateStateVars 0 0.05 (-1e-6) 0 (ofList [0.05, 0]) 2 (ofList []) 6).1 = Status.ok ∧
      (_updateStateVars 0 0.05 (-1e-6) 0 (ofList [0.05, 0]) 2 (ofList []) 6).2 s_slipPrev =
        0.05 ∧
      (_updateStateVars 0 0.05 (-1e-6) 0 (ofList [0.05, 0]) 2 (ofList []) 6).2 s_slipCum = 0 := by
  obtain ⟨h1, h2, h3, -⟩ := C5_updateStateVars_reset 0 0.05 (-1e-6) 0 (ofList [0.05, 0])
    (ofList []) (by norm_num)
  exact ⟨h1, h2, h3⟩

/-! ## Decoding the properties -/

/-- C6: on a raw array of the six scalars `coefS, coefT, coefD, distT, distF,
cohesion`, `_dbToProperties` fails if and only if `coefS ≤ 0` or `coefT ≤ 0`
or `coefD ≤ 0` or `distT ≤ 0` or `distF ≤ 0` or `cohesion < 0`, and the
failure is then a thrown error, never a failed assertion; in particular
positive coefficients and distances with `cohesion = 0` are accepted. -/
theorem C6_dbToProperties_validation (propValues : Nat → PylithScalar)
    (coefS coefT coefD distT distF cohesion : PylithScalar) :
    ((_dbToProperties propValues [coefS, coefT, coefD, distT, distF, cohesion]).1 ≠ Status.ok ↔
        coefS ≤ 0 ∨ coefT ≤ 0 ∨ coefD ≤ 0 ∨ distT ≤ 0 ∨ distF ≤ 0 ∨ cohesion < 0) ∧
      (_dbToProperties propValues [coefS, coefT, coefD, distT, distF, cohesion]).1 ≠
        Status.assertion_failed ∧
      (0 < coefS ∧ 0 < coefT ∧ 0 < coefD ∧ 0 < distT ∧ 0 < distF →
        (_dbToProperties propValues [coefS, coefT, coefD, distT, distF, 0]).1 = Status.ok) := by
  refine ⟨?_, ?_, ?_⟩
  · rw [dbToProperties_six]
    by_cases h1 : coefS ≤ 0 <;> by_cases h2 : coefT ≤ 0 <;> by_cases h3 : coefD ≤ 0 <;>
      by_cases h4 : distT ≤ 0 <;> by_cases h5 : distF ≤ 0 <;> by_cases h6 : cohesion < 0 <;>
      simp [h1, h2, h3, h4, h5, h6]
  · rw [dbToProperties_six]
    by_cases h1 : coefS ≤ 0 <;> by_cases h2 : coefT ≤ 0 <;> by_cases h3 : coefD ≤ 0 <;>
      by_cases h4 : distT ≤ 0 <;> by_cases h5 : distF ≤ 0 <;> by_cases h6 : cohesion < 0 <;>
      simp [h1, h2, h3, h4, h5, h6]
  · rintro ⟨h1, h2, h3, h4, h5⟩
    rw [dbToProperties_six]
    simp [not_le.mpr h1, not_le.mpr h2, not_le.mpr h3, not_le.mpr h4, not_le.mpr h5]

/-- C6 at concrete inputs: the array of the specification's scenario (cohesion
`0`) is accepted, and the same array with cohesion `-1` is rejected. -/
theorem C6_dbToProperties_validation_witness :
    (_dbToProperties (ofList []) [0.6, 0.4, 0.2, 0.1, 0.5, 0]).1 = Status.ok ∧
      (_dbToProperties (ofList []) [0.6, 0.4, 0.2, 0.1, 0.5, -1]).1 ≠ Status.ok := by
  constructor
  · exact (C6_dbToProperties_validation (ofList []) 0.6 0.4 0.2 0.1 0.5 0).2.2
      (by norm_num)
  · exact (C6_dbToProperties_validation (ofList []) 0.6 0.4 0.2 0.1 0.5 (-1)).1.mpr
      (by norm_num)

/-- C7: whenever `_dbToProperties` succeeds, the raw array has the six entries
and the stored property array equals it field for field, in the same order:
`propValues[p_X] = dbValues[db_X]` for each of the six fields; nothing else
is written. -/
theorem C7_dbToProperties_no_clamping (propValues : Nat → PylithScalar)
    (dbValues : List PylithScalar)
    (h : (_dbToProperties propValues dbValues).1 = Status.ok) :
    dbValues[db_coefS]? = some ((_dbToProperties propValues dbValues).2 p_coefS) ∧
      dbValues[db_coefT]? = some ((_dbToProperties propValues dbValues).2 p_coefT) ∧
      dbValues[db_coefD]? = some ((_dbToProperties propValues dbValues).2 p_coefD) ∧
      dbValues[db_distT]? = some ((_dbToProperties propValues dbValues).2 p_distT) ∧
      dbValues[db_distF]? = some ((_dbToProperties propValues dbValues).2 p_distF) ∧
      dbValues[db_cohesion]? = some ((_dbToProperties propValues dbValues).2 p_cohesion) ∧
      ∀ i, 6 ≤ i → (_dbToProperties propValues dbValues).2 i = propValues i := by
  have hlen : dbValues.length = 6 := dbToProperties_length (by rw [h]; decide)
  obtain ⟨a, b, c, d, e, f, rfl⟩ := length_eq_six hlen
  rw [dbToProperties_six] at h ⊢
  by_cases h1 : a ≤ 0
  · simp [h1] at h
  by_cases h2 : b ≤ 0
  · simp [h1, h2] at h
  by_cases h3 : c ≤ 0
  · simp [h1, h2, h3] at h
  by_cases h4 : d ≤ 0
  · simp [h1, h2, h3, h4] at h
  by_cases h5 : e ≤ 0
  · simp [h1, h2, h3, h4, h5] at h
  by_cases h6 : f < 0
  · simp [h1, h2, h3, h4, h5, h6] at h
  simp only [h1, h2, h3, h4, h5, h6, if_false]
  refine ⟨?_, ?_, ?_, ?_, ?_, ?_, ?_⟩
  · simp [idx_vals, Function.update_apply]
  · simp [idx_vals, Function.update_apply]
  · simp [idx_vals, Function.update_apply]
  · simp [idx_vals, Function.update_apply]
  · simp [idx_vals, Function.update_apply]
  · simp [idx_vals, Function.update_apply]
  · intro i hi
    have e0 : i ≠ 0 := by omega
    have e1 : i ≠ 1 := by omega
    have e2 : i ≠ 2 := by omega
    have e3 : i ≠ 3 := by omega
    have e4 : i ≠ 4 := by omega
    have e5 : i ≠ 5 := by omega
    simp [Function.update_apply, e0, e1, e2, e3, e4, e5]

/-- C7 at a concrete input: decoding the array of the specification's
scenario stores `0.6, 0.4, 0.2, 0.1, 0.5, 0` at `p_coefS .. p_cohesion`. -/
theorem C7_dbToProperties_no_clamping_witness :
    (_dbToProperties (ofList []) [0.6, 0.4, 0.2, 0.1, 0.5, 0]).1 = Status.ok ∧
      some ((_dbToProperties (ofList []) [0.6, 0.4, 0.2, 0.1, 0.5, 0]).2 p_coefS) = some 0.6 ∧
      some ((_dbToProperties (ofList []) [0.6, 0.4, 0.2, 0.1, 0.5, 0]).2 p_distF) = some 0.5 := by
  have hok : (_dbToProperties (ofList []) [0.6, 0.4, 0.2, 0.1, 0.5, 0]).1 = Status.ok := by
    rw [dbToProperties_six]
    norm_num
  obtain ⟨h1, -, -, -, h5, -, -⟩ := C7_dbToProperties_no_clamping (ofList [])
    [0.6, 0.4, 0.2, 0.1, 0.5, 0] hok
  refine ⟨hok, ?_, ?_⟩
  · rw [← h1]
    simp [idx_vals]
  · rw [← h5]
    simp [idx_vals]

/-- C8: whenever `_dbToProperties` throws, the message is the one of a field
whose value violates its constraint and the value carried is that field's
entry of the raw array; the field is the first invalid one in the order static
coefficient, transition coefficient, dynamic coefficient, transition slip
distance, final slip distance, cohesion.  The six messages are pairwise
different. -/
theorem C8_dbToProperties_error (propValues : Nat → PylithScalar)
    (dbValues : List PylithScalar) (text : String) (value : PylithScalar)
    (h : (_dbToProperties propValues dbValues).1 = Status.runtime_error text value) :
    ∃ coefS coefT coefD distT distF cohesion,
      dbValues = [coefS, coefT, coefD, distT, distF, cohesion] ∧
      ((text = msg_coefS ∧ value = coefS ∧ coefS ≤ 0) ∨
        (text = msg_coefT ∧ value = coefT ∧ coefT ≤ 0 ∧ 0 < coefS) ∨
        (text = msg_coefD ∧ value = coefD ∧ coefD ≤ 0 ∧ 0 < coefS ∧ 0 < coefT) ∨
        (text = msg_distT ∧ value = distT ∧ distT ≤ 0 ∧ 0 < coefS ∧ 0 < coefT ∧ 0 < coefD) ∨
        (text = msg_distF ∧ value = distF ∧ distF ≤ 0 ∧
          0 < coefS ∧ 0 < coefT ∧ 0 < coefD ∧ 0 < distT) ∨
        (text = msg_cohesion ∧ value = cohesion ∧ cohesion < 0 ∧
          0 < coefS ∧ 0 < coefT ∧ 0 < coefD ∧ 0 < distT ∧ 0 < distF)) ∧
      [msg_coefS, msg_coefT, msg_coefD, msg_distT, msg_distF, msg_cohesion].Nodup := by
  have hlen : dbValues.length = 6 := dbToProperties_length (by rw [h]; simp)
  obtain ⟨a, b, c, d, e, f, rfl⟩ := length_eq_six hlen
  refine ⟨a, b, c, d, e, f, rfl, ?_, by decide⟩
  rw [dbToProperties_six] at h
  by_cases h1 : a ≤ 0
  · simp [h1] at h
    exact Or.inl ⟨h.1.symm, h.2.symm, h1⟩
  by_cases h2 : b ≤ 0
  · simp [h1, h2] at h
    exact Or.inr (Or.inl ⟨h.1.symm, h.2.symm, h2, not_le.mp h1⟩)
  by_cases h3 : c ≤ 0
  · simp [h1, h2, h3] at h
    exact Or.inr (Or.inr (Or.inl ⟨h.1.symm, h.2.symm, h3, not_le.mp h1, not_le.mp h2⟩))
  by_cases h4 : d ≤ 0
  · simp [h1, h2, h3, h4] at h
    exact Or.inr (Or.inr (Or.inr (Or.inl
      ⟨h.1.symm, h.2.symm, h4, not_le.mp h1, not_le.mp h2, not_le.mp h3⟩)))
  by_cases h5 : e ≤ 0
  · simp [h1, h2, h3, h4, h5] at h
    exact Or.inr (Or.inr (Or.inr (Or.inr (Or.inl
      ⟨h.1.symm, h.2.symm, h5, not_le.mp h1, not_le.mp h2, not_le.mp h3, not_le.mp h4⟩))))
  by_cases h6 : f < 0
  · simp [h1, h2, h3, h4, h5, h6] at h
    exact Or.inr (Or.inr (Or.inr (Or.inr (Or.inr
      ⟨h.1.symm, h.2.symm, h6, not_le.mp h1, not_le.mp h2, not_le.mp h3, not_le.mp h4,
        not_le.mp h5⟩))))
  simp [h1, h2, h3, h4, h5, h6] at h

/-- C8 at a concrete input: with a valid static coefficient and both the
dynamic coefficient (`-2`) and the final distance (`0`) invalid, the error is
the one of the dynamic coefficient and carries `-2`. -/
theorem C8_dbToProperties_error_witness :
    (_dbToProperties (ofList []) [0.6, 0.4, -2, 0.1, 0, 0]).1 =
        Status.runtime_error msg_coefD (-2) ∧
      ∃ coefS coefT coefD distT distF cohesion : PylithScalar,
        [0.6, 0.4, -2, 0.1, 0, 0] = [coefS, coefT, coefD, distT, distF, cohesion] ∧
        ((msg_coefD = msg_coefS ∧ -2 = coefS ∧ coefS ≤ 0) ∨
          (msg_coefD = msg_coefT ∧ -2 = coefT ∧ coefT ≤ 0 ∧ 0 < coefS) ∨
          (msg_coefD = msg_coefD ∧ -2 = coefD ∧ coefD ≤ 0 ∧ 0 < coefS ∧ 0 < coefT) ∨
          (msg_coefD = msg_distT ∧ -2 = distT ∧ distT ≤ 0 ∧ 0 < coefS ∧ 0 < coefT ∧
            0 < coefD) ∨
          (msg_coefD = msg_distF ∧ -2 = distF ∧ distF ≤ 0 ∧
            0 < coefS ∧ 0 < coefT ∧ 0 < coefD ∧ 0 < distT) ∨
          (msg_coefD = msg_cohesion ∧ -2 = cohesion ∧ cohesion < 0 ∧
            0 < coefS ∧ 0 < coefT ∧ 0 < coefD ∧ 0 < distT ∧ 0 < distF)) ∧
        [msg_coefS, msg_coefT, msg_coefD, msg_distT, msg_distF, msg_cohesion].Nodup := by
  have herr : (_dbToProperties (ofList []) [0.6, 0.4, -2, 0.1, 0, 0]).1 =
      Status.runtime_error msg_coefD (-2) := by
    rw [dbToProperties_six]
    norm_num
  exact ⟨herr, C8_dbToProperties_error (ofList []) [0.6, 0.4, -2, 0.1, 0, 0] msg_coefD (-2) herr⟩

/-! ## Continuity, and the derivative against the slip -/

theorem nondimProperties_eq (n : Nondimensional) (values : Nat → PylithScalar) :
    _nondimProperties (some n) values 6 =
      (Status.ok, fun i =>
        if i = 5 then values 5 / n.pressureScale
        else if i = 4 then values 4 / n.lengthScale
        else if i = 3 then values 3 / n.lengthScale
        else values i) := by
  simp only [_nondimProperties, _DoubleSlipWeakeningFrictionNoHeal.numProperties,
    Nondimensional.nondimensionalize, idx_vals, ne_eq, not_true_eq_false, if_false]
  congr 1
  funext i
  by_cases h5 : i = 5
  · subst h5; simp [Function.update_apply, idx_vals]
  by_cases h4 : i = 4
  · subst h4; simp [Function.update_apply, idx_vals]
  by_cases h3 : i = 3
  · subst h3; simp [Function.update_apply, idx_vals]
  simp [Function.update_apply, idx_vals, h3, h4, h5]

theorem dimProperties_eq (n : Nondimensional) (values : Nat → PylithScalar) :
    _dimProperties (some n) values 6 =
      (Status.ok, fun i =>
        if i = 5 then values 5 * n.pressureScale
        else if i = 4 then values 4 * n.lengthScale
        else if i = 3 then values 3 * n.lengthScale
        else values i) := by
  simp only [_dimProperties, _DoubleSlipWeakeningFrictionNoHeal.numProperties,
    Nondimensional.dimensionalize, idx_vals, ne_eq, not_true_eq_false, if_false]
  congr 1
  funext i
  by_cases h5 : i = 5
  · subst h5; simp [Function.update_apply, idx_vals]
  by_cases h4 : i = 4
  · subst h4; simp [Function.update_apply, idx_vals]
  by_cases h3 : i = 3
  · subst h3; simp [Function.update_apply, idx_vals]
  simp [Function.update_apply, idx_vals, h3, h4, h5]

/-- C12: for every scale triple `_nondimProperties` and `_dimProperties`
succeed, leave `p_coefS`, `p_coefT`, `p_coefD` (and every offset outside the
six fields) unchanged, rescale `distT` and `distF` by `lengthScale` and
`cohesion` by `pressureScale`, and their result does not depend on
`timeScale`. -/
theorem C12_scaling_frame (lengthScale timeScale pressureScale : PylithScalar)
    (values : Nat → PylithScalar) :
    ((_nondimProperties (some ⟨lengthScale, timeScale, pressureScale⟩) values 6).1 =
        Status.ok ∧
      (_nondimProperties (some ⟨lengthScale, timeScale, pressureScale⟩) values 6).2 p_coefS =
        values p_coefS ∧
      (_nondimProperties (some ⟨lengthScale, timeScale, pressureScale⟩) values 6).2 p_coefT =
        values p_coefT ∧
      (_nondimProperties (some ⟨lengthScale, timeScale, pressureScale⟩) values 6).2 p_coefD =
        values p_coefD ∧
      (_nondimProperties (some ⟨lengthScale, timeScale, pressureScale⟩) values 6).2 p_distT =
        values p_distT / lengthScale ∧
      (_nondimProperties (some ⟨lengthScale, timeScale, pressureScale⟩) values 6).2 p_distF =
        values p_distF / lengthScale ∧
      (_nondimProperties (some ⟨lengthScale, timeScale, pressureScale⟩) values 6).2
        p_cohesion = values p_cohesion / pressureScale ∧
      (∀ i, 6 ≤ i →
        (_nondimProperties (some ⟨lengthScale, timeScale, pressureScale⟩) values 6).2 i =
          values i) ∧
      ∀ timeScale2 : PylithScalar,
        _nondimProperties (some ⟨lengthScale, timeScale2, pressureScale⟩) values 6 =
          _nondimProperties (some ⟨lengthScale, timeScale, pressureScale⟩) values 6) ∧
    ((_dimProperties (some ⟨lengthScale, timeScale, pressureScale⟩) values 6).1 =
        Status.ok ∧
      (_dimProperties (some ⟨lengthScale, timeScale, pressureScale⟩) values 6).2 p_coefS =
        values p_coefS ∧
      (_dimProperties (some ⟨lengthScale, timeScale, pressureScale⟩) values 6).2 p_coefT =
        values p_coefT ∧
      (_dimProperties (some ⟨lengthScale, timeScale, pressureScale⟩) values 6).2 p_coefD =
        values p_coefD ∧
      (_dimProperties (some ⟨lengthScale, timeScale, pressureScale⟩) values 6).2 p_distT =
        values p_distT * lengthScale ∧
      (_dimProperties (some ⟨lengthScale, timeScale, pressureScale⟩) values 6).2 p_distF =
        values p_distF * lengthScale ∧
      (_dimProperties (some ⟨lengthScale, timeScale, pressureScale⟩) values 6).2
        p_cohesion = values p_cohesion * pressureScale ∧
      (∀ i, 6 ≤ i →
        (_dimProperties (some ⟨lengthScale, timeScale, pressureScale⟩) values 6).2 i =
          values i) ∧
      ∀ timeScale2 : PylithScalar,
        _dimProperties (some ⟨lengthScale, timeScale2, pressureScale⟩) values 6 =
          _dimProperties (some ⟨lengthScale, timeScale, pressureScale⟩) values 6) := by
  constructor
  · simp only [nondimProperties_eq, idx_vals]
    refine ⟨trivial, by simp, by simp, by simp, by simp, by simp, by simp, ?_, ?_⟩
    · intro i hi
      have e3 : i ≠ 3 := by omega
      have e4 : i ≠ 4 := by omega
      have e5 : i ≠ 5 := by omega
      simp [e3, e4, e5]
    · intro _; trivial
  · simp only [dimProperties_eq, idx_vals]
    refine ⟨trivial, by simp, by simp, by simp, by simp, by simp, by simp, ?_, ?_⟩
    · intro i hi
      have e3 : i ≠ 3 := by omega
      have e4 : i ≠ 4 := by omega
      have e5 : i ≠ 5 := by omega
      simp [e3, e4, e5]
    · intro _; trivial

/-! ## Invariants and frame of the state -/

theorem updateStateVars_cum (t slip slipRate normalTraction : PylithScalar)
    (stateVars properties : Nat → PylithScalar) :
    (_updateStateVars t slip slipRate normalTraction stateVars 2 properties 6).2 s_slipCum =
      if 0 ≤ slipRate then stateVars s_slipCum + |slip - stateVars s_slipPrev| else 0 := by
  by_cases h : 0 ≤ slipRate <;>
    simp [_updateStateVars, _DoubleSlipWeakeningFrictionNoHeal.numProperties,
      _DoubleSlipWeakeningFrictionNoHeal.numStateVars, h, idx_vals, Function.update_apply]

/-- C14: if the stored cumulative slip is `≥ 0` before `_updateStateVars`, it
is `≥ 0` afterwards, for every accepted slip and slip rate; moreover for
`slipRate ≥ 0` the new cumulative slip is at least the old one, and for
`slipRate < 0` it is `0`. -/
theorem C14_cumulative_slip_invariant (t slip slipRate normalTraction : PylithScalar)
    (stateVars properties : Nat → PylithScalar) (h : 0 ≤ stateVars s_slipCum) :
    0 ≤ (_updateStateVars t slip slipRate normalTraction stateVars 2 properties 6).2
        s_slipCum ∧
      (0 ≤ slipRate →
        stateVars s_slipCum ≤
          (_updateStateVars t slip slipRate normalTraction stateVars 2 properties 6).2
            s_slipCum) ∧
      (slipRate < 0 →
        (_updateStateVars t slip slipRate normalTraction stateVars 2 properties 6).2
          s_slipCum = 0) := by
  rw [updateStateVars_cum]
  have habs : 0 ≤ |slip - stateVars s_slipPrev| := abs_nonneg _
  refine ⟨?_, ?_, ?_⟩
  · split_ifs
    · linarith
    · exact le_refl 0
  · intro hr
    rw [if_pos hr]
    linarith
  · intro hr
    rw [if_neg (not_le.mpr hr)]

/-- C14 at concrete inputs: from `{cum = 0.05, prev = 0}`, slip `-0.02` with
rate `0` raises the cumulative slip to `0.07`, and with rate `-1` sets it to
`0`. -/
theorem C14_cumulative_slip_invariant_witness :
    (0.05 : PylithScalar) ≤
        (_updateStateVars 0 (-0.02) 0 0 (ofList [0.05, 0]) 2 (ofList []) 6).2 s_slipCum ∧
      (_updateStateVars 0 (-0.02) (-1) 0 (ofList [0.05, 0]) 2 (ofList []) 6).2 s_slipCum = 0 := by
  have h0 : (0 : PylithScalar) ≤ ofList [0.05, 0] s_slipCum := by
    norm_num [ofList, idx_vals]
  have e : ofList [0.05, 0] s_slipCum = 0.05 := by simp [ofList, idx_vals]
  constructor
  · have h := (C14_cumulative_slip_invariant 0 (-0.02) 0 0 (ofList [0.05, 0]) (ofList [])
      h0).2.1 (le_refl 0)
    rwa [e] at h
  · exact (C14_cumulative_slip_invariant 0 (-0.02) (-1) 0 (ofList [0.05, 0]) (ofList [])
      h0).2.2 (by norm_num)

theorem exec_calcFriction_eq (t slip slipRate normalTraction : PylithScalar)
    (numProperties numStateVars : Int) (m : VertexArrays) :
    exec_calcFriction t slip slipRate normalTraction numProperties numStateVars m =
      (_calcFriction t slip slipRate normalTraction m.properties numProperties m.stateVars
        numStateVars, m) := by
  unfold exec_calcFriction _calcFriction mu_f
  simp only [Exec.andThen, Exec.ret, Exec.loadProperty, Exec.loadStateVar, ite_apply]
  split_ifs <;> rfl

theorem exec_calcFrictionDeriv_eq (t slip slipRate normalTraction : PylithScalar)
    (numProperties numStateVars : Int) (m : VertexArrays) :
    exec_calcFrictionDeriv t slip slipRate normalTraction numProperties numStateVars m =
      (_calcFrictionDeriv t slip slipRate normalTraction m.properties numProperties
        m.stateVars numStateVars, m) := by
  unfold exec_calcFrictionDeriv _calcFrictionDeriv
  simp only [Exec.andThen, Exec.ret, Exec.loadProperty, Exec.loadStateVar, ite_apply]
  split_ifs <;> rfl

theorem exec_updateStateVars_eq (t slip slipRate normalTraction : PylithScalar)
    (numStateVars numProperties : Int) (m : VertexArrays) :
    exec_updateStateVars t slip slipRate normalTraction numStateVars numProperties m =
      ((_updateStateVars t slip slipRate normalTraction m.stateVars numStateVars
          m.properties numProperties).1,
        { properties := m.properties,
          stateVars := (_updateStateVars t slip slipRate normalTraction m.stateVars
            numStateVars m.properties numProperties).2 }) := by
  unfold exec_updateStateVars _updateStateVars
  simp only [Exec.andThen, Exec.ret, Exec.loadStateVar, Exec.storeStateVar, ite_apply]
  split_ifs <;> rfl

theorem runEvaluations_frame (es : List Evaluation) (m : VertexArrays) :
    runEvaluations es m = (es.map (fun e => (e.call m).1), m) := by
  induction es with
  | nil => rfl
  | cons e rest ih =>
    have he : (e.call m).2 = m := by
      cases e with
      | friction a => simp only [Evaluation.call, exec_calcFriction_eq]
      | frictionDeriv a => simp only [Evaluation.call, exec_calcFrictionDeriv_eq]
    simp only [runEvaluations, he, ih, List.map_cons]

/-- C15: the bodies of `_calcFriction` and `_calcFrictionDeriv`, run on the
arrays of a vertex, return the value of the function and leave the property
array and the state array as they were; hence after any sequence of trial
evaluations the arrays are the ones before it, every evaluation in the
sequence returns what it returns on the initial arrays (so equal arguments
give equal values), and the next `_updateStateVars`, which does write the
state array, produces what it would have produced without the evaluations. -/
theorem C15_evaluation_frame (es : List Evaluation) (m : VertexArrays) (a b : CallArgs) :
    exec_calcFriction a.t a.slip a.slipRate a.normalTraction 6 2 m =
        (_calcFriction a.t a.slip a.slipRate a.normalTraction m.properties 6 m.stateVars 2,
          m) ∧
      exec_calcFrictionDeriv a.t a.slip a.slipRate a.normalTraction 6 2 m =
        (_calcFrictionDeriv a.t a.slip a.slipRate a.normalTraction m.properties 6
          m.stateVars 2, m) ∧
      (runEvaluations es m).2 = m ∧
      (runEvaluations es m).1 = es.map (fun e => (e.call m).1) ∧
      exec_updateStateVars b.t b.slip b.slipRate b.normalTraction 2 6 (runEvaluations es m).2 =
        exec_updateStateVars b.t b.slip b.slipRate b.normalTraction 2 6 m ∧
      exec_updateStateVars b.t b.slip b.slipRate b.normalTraction 2 6 m =
        ((_updateStateVars b.t b.slip b.slipRate b.normalTraction m.stateVars 2
            m.properties 6).1,
          { properties := m.properties,
            stateVars := (_updateStateVars b.t b.slip b.slipRate b.normalTraction
              m.stateVars 2 m.properties 6).2 }) := by
  refine ⟨exec_calcFriction_eq _ _ _ _ _ _ m, exec_calcFrictionDeriv_eq _ _ _ _ _ _ m,
    ?_, ?_, ?_, exec_updateStateVars_eq _ _ _ _ _ _ m⟩
  · rw [runEvaluations_frame]
  · rw [runEvaluations_frame]
  · rw [runEvaluations_frame]

/-! ## Arity and registry -/

/-- C16: `_dbToProperties` fails, leaving the property array as it was, on
every raw array whose length is not `6`, and `_dbToStateVars` fails, leaving
the state array as it was, on every raw array whose length is not `2`. -/
theorem C16_arity_checked (propValues stateValues : Nat → PylithScalar)
    (dbProps dbState : List PylithScalar)
    (hp : dbProps.length ≠ 6) (hs : dbState.length ≠ 2) :
    _dbToProperties propValues dbProps = (Status.assertion_failed, propValues) ∧
      _dbToStateVars stateValues dbState = (Status.assertion_failed, stateValues) := by
  have hp6 : ¬ (6 : Int) = (dbProps.length : Int) := by
    intro h6
    exact hp (by exact_mod_cast h6.symm)
  have hs2 : ¬ (2 : Int) = (dbState.length : Int) := by
    intro h2
    exact hs (by exact_mod_cast h2.symm)
  constructor
  · simp [_dbToProperties, _DoubleSlipWeakeningFrictionNoHeal.numDBProperties, hp6]
  · simp [_dbToStateVars, _DoubleSlipWeakeningFrictionNoHeal.numDBStateVars, hs2]

/-- C16 at concrete inputs: a five-entry property array (the arity of the
parabolic variant) and a one-entry state array are both refused. -/
theorem C16_arity_checked_witness :
    (_dbToProperties (ofList []) [0.6, 0.2, 0.1, 0.5, 0]).1 = Status.assertion_failed ∧
      (_dbToStateVars (ofList []) [0]).1 = Status.assertion_failed := by
  have h := C16_arity_checked (ofList []) (ofList []) [0.6, 0.2, 0.1, 0.5, 0] [0]
    (by decide) (by decide)
  rw [h.1, h.2]
  exact ⟨rfl, rfl⟩

/-- C17: the property descriptor list and the database-name list both read,
in order, static_coefficient, transition_coefficient, dynamic_coefficient,
transition_slip_distance, final_slip_distance, cohesion; the indices
`p_coefS .. p_cohesion` are `0 .. 5` in that order, pairwise distinct, and
`p_X = db_X` for every field; the state lists both read cumulative_slip,
previous_slip, with `s_slipCum = db_slipCum = 0` and
`s_slipPrev = db_slipPrev = 1`; looking the lists up at the indices gives the
names in that order. -/
theorem C17_registry_order :
    _DoubleSlipWeakeningFrictionNoHeal.properties =
        ["static_coefficient", "transition_coefficient", "dynamic_coefficient",
          "transition_slip_distance", "final_slip_distance", "cohesion"] ∧
      _DoubleSlipWeakeningFrictionNoHeal.dbProperties =
        ["static_coefficient", "transition_coefficient", "dynamic_coefficient",
          "transition_slip_distance", "final_slip_distance", "cohesion"] ∧
      [p_coefS, p_coefT, p_coefD, p_distT, p_distF, p_cohesion] = [0, 1, 2, 3, 4, 5] ∧
      [p_coefS, p_coefT, p_coefD, p_distT, p_distF, p_cohesion].Nodup ∧
      [db_coefS, db_coefT, db_coefD, db_distT, db_distF, db_cohesion] =
        [p_coefS, p_coefT, p_coefD, p_distT, p_distF, p_cohesion] ∧
      [p_coefS, p_coefT, p_coefD, p_distT, p_distF, p_cohesion].map
          (fun i => _DoubleSlipWeakeningFrictionNoHeal.properties[i]?) =
        [some "static_coefficient", some "transition_coefficient",
          some "dynamic_coefficient", some "transition_slip_distance",
          some "final_slip_distance", some "cohesion"] ∧
      [db_coefS, db_coefT, db_coefD, db_distT, db_distF, db_cohesion].map
          (fun i => _DoubleSlipWeakeningFrictionNoHeal.dbProperties[i]?) =
        [some "static_coefficient", some "transition_coefficient",
          some "dynamic_coefficient", some "transition_slip_distance",
          some "final_slip_distance", some "cohesion"] ∧
      (_DoubleSlipWeakeningFrictionNoHeal.numProperties = 6 ∧
        _DoubleSlipWeakeningFrictionNoHeal.numDBProperties = 6 ∧
        _DoubleSlipWeakeningFrictionNoHeal.numStateVars = 2 ∧
        _DoubleSlipWeakeningFrictionNoHeal.numDBStateVars = 2) ∧
      _DoubleSlipWeakeningFrictionNoHeal.stateVars = ["cumulative_slip", "previous_slip"] ∧
      _DoubleSlipWeakeningFrictionNoHeal.dbStateVars = ["cumulative_slip", "previous_slip"] ∧
      (s_slipCum = 0 ∧ db_slipCum = 0 ∧ s_slipPrev = 1 ∧ db_slipPrev = 1) ∧
      [s_slipCum, s_slipPrev].map (fun i => _DoubleSlipWeakeningFrictionNoHeal.stateVars[i]?) =
        [some "cumulative_slip", some "previous_slip"] ∧
      [db_slipCum, db_slipPrev].map
          (fun i => _DoubleSlipWeakeningFrictionNoHeal.dbStateVars[i]?) =
        [some "cumulative_slip", some "previous_slip"] := by
  refine ⟨rfl, rfl, rfl, by decide, rfl, rfl, rfl, ⟨rfl, rfl, rfl, rfl⟩, rfl, rfl,
    ⟨rfl, rfl, rfl, rfl⟩, rfl, rfl⟩

end DoubleSlipWeakeningFrictionNoHeal

namespace ParabolicCohesiveZoneNoHeal

/-- C18: for every `coefS`, `coefD`, `D_s` and `D_w > 0`, the parabolic law
takes the value `coefD` exactly at `D = D_s + D_w`, where it is still given by
the parabolic expression, stays `coefD` for every larger `D`, and is a
continuous function of `D`. -/
theorem C18_parabolic_boundary (coefS coefD D_s D_w : ℚ) (hw : 0 < D_w) :
    mu_f coefS coefD D_s D_w (D_s + D_w) =
        coefS - (coefS - coefD) * ((D_s + D_w - D_s) / D_w) ^ 2 ∧
      mu_f coefS coefD D_s D_w (D_s + D_w) = coefD ∧
      (∀ D, D_s + D_w < D → mu_f coefS coefD D_s D_w D = coefD) ∧
      Continuous (fun D => mu_f coefS coefD D_s D_w D) := by
  have hw0 : D_w ≠ 0 := ne_of_gt hw
  have hb : coefS - (coefS - coefD) * ((D_s + D_w - D_s) / D_w) ^ 2 = coefD := by
    have h1 : (D_s + D_w - D_s) / D_w = 1 := by
      rw [add_sub_cancel_left]
      exact div_self hw0
    rw [h1]
    ring
  have hm : mu_f coefS coefD D_s D_w (D_s + D_w) =
      coefS - (coefS - coefD) * ((D_s + D_w - D_s) / D_w) ^ 2 := by
    simp only [mu_f, le_refl, if_true]
  refine ⟨hm, hm.trans hb, ?_, ?_⟩
  · intro D hD
    simp [mu_f, not_le.mpr hD]
  · unfold mu_f
    refine Continuous.if_le ?_ continuous_const continuous_id continuous_const ?_
    · fun_prop
    · intro D hD
      rw [hD]
      exact hb

/-- C18 at a concrete input: `coefS = 0.6`, `coefD = 0.2`, `D_s = 0.1`,
`D_w = 0.4`: the coefficient is `0.2` at `D = 0.5` and at `D = 2`. -/
theorem C18_parabolic_boundary_witness :
    mu_f 0.6 0.2 0.1 0.4 (0.1 + 0.4) = 0.2 ∧ mu_f 0.6 0.2 0.1 0.4 2 = 0.2 := by
  obtain ⟨-, h1, h2, -⟩ := C18_parabolic_boundary 0.6 0.2 0.1 0.4 (by norm_num)
  exact ⟨h1, h2 2 (by norm_num)⟩

end ParabolicCohesiveZoneNoHeal

namespace DoubleSlipWeakeningFrictionNoHeal

/-! ## The documented law -/

/-- C22: for every property set accepted by `_dbToProperties` (also one with
`distF ≤ distT`) and every state, slip and normal traction, every divisor
that `_calcFriction` and `_calcFrictionDeriv` evaluate is strictly positive:
`distT > 0` in the first segment, and `distF - distT > 0` whenever the second
segment is entered. -/
theorem C22_divisors_positive (propValues properties : Nat → PylithScalar)
    (dbValues : List PylithScalar)
    (hacc : _dbToProperties propValues dbValues = (Status.ok, properties))
    (t slip slipRate normalTraction : PylithScalar) (stateVars : Nat → PylithScalar) :
    (∀ d ∈ divisors_calcFriction t slip slipRate normalTraction properties 6 stateVars 2,
        0 < d) ∧
      (∀ d ∈ divisors_calcFrictionDeriv t slip slipRate normalTraction properties 6
        stateVars 2, 0 < d) ∧
      (segment properties (trialSlipCum stateVars slip) = 1 → 0 < properties p_distT) ∧
      (segment properties (trialSlipCum stateVars slip) = 2 →
        0 < properties p_distF - properties p_distT) := by
  obtain ⟨-, -, -, hT, -, -⟩ := accepted_pos hacc
  have key : ∀ d ∈ (if normalTraction ≤ 0 then
      (if stateVars s_slipCum + |slip - stateVars s_slipPrev| < properties p_distT then
        [properties p_distT]
      else if stateVars s_slipCum + |slip - stateVars s_slipPrev| < properties p_distF then
        [properties p_distF - properties p_distT]
      else []) else ([] : List PylithScalar)), 0 < d := by
    intro d hd
    by_cases hn : normalTraction ≤ 0
    · rw [if_pos hn] at hd
      by_cases a1 : stateVars s_slipCum + |slip - stateVars s_slipPrev| < properties p_distT
      · rw [if_pos a1] at hd
        rw [List.mem_singleton.mp hd]
        exact hT
      · rw [if_neg a1] at hd
        by_cases a2 : stateVars s_slipCum + |slip - stateVars s_slipPrev| < properties p_distF
        · rw [if_pos a2] at hd
          rw [List.mem_singleton.mp hd]
          exact sub_pos.mpr (lt_of_le_of_lt (not_lt.mp a1) a2)
        · rw [if_neg a2] at hd
          exact absurd hd (List.not_mem_nil d)
    · rw [if_neg hn] at hd
      exact absurd hd (List.not_mem_nil d)
  refine ⟨?_, ?_, ?_, ?_⟩
  · intro d hd
    apply key d
    simpa [divisors_calcFriction, _DoubleSlipWeakeningFrictionNoHeal.numProperties,
      _DoubleSlipWeakeningFrictionNoHeal.numStateVars] using hd
  · intro d hd
    apply key d
    simpa [divisors_calcFrictionDeriv, _DoubleSlipWeakeningFrictionNoHeal.numProperties,
      _DoubleSlipWeakeningFrictionNoHeal.numStateVars] using hd
  · intro _
    exact hT
  · intro hseg
    unfold segment at hseg
    by_cases a1 : trialSlipCum stateVars slip < properties p_distT
    · simp [a1] at hseg
    · by_cases a2 : trialSlipCum stateVars slip < properties p_distF
      · exact sub_pos.mpr (lt_of_le_of_lt (not_lt.mp a1) a2)
      · simp [a1, a2] at hseg

/-- C22 at a concrete input: the accepted array `3, 2, 1, 2, 1, 0` has
`distF < distT`; at `D = 3/2` the only divisor evaluated is `distT = 2`, and at
`D = 5/2` no division is performed. -/
theorem C22_divisors_positive_witness :
    divisors_calcFriction 0 (3 / 2) 0 (-1) (ofList [3, 2, 1, 2, 1, 0]) 6 (ofList [0, 0]) 2 =
        [2] ∧
      divisors_calcFrictionDeriv 0 (5 / 2) 0 (-1) (ofList [3, 2, 1, 2, 1, 0]) 6
        (ofList [0, 0]) 2 = [] ∧
      ∀ d ∈ divisors_calcFriction 0 (3 / 2) 0 (-1) (ofList [3, 2, 1, 2, 1, 0]) 6
        (ofList [0, 0]) 2, 0 < d := by
  refine ⟨?_, ?_, ?_⟩
  · norm_num [divisors_calcFriction, _DoubleSlipWeakeningFrictionNoHeal.numProperties,
      _DoubleSlipWeakeningFrictionNoHeal.numStateVars, ofList, idx_vals, abs_of_nonneg]
  · norm_num [divisors_calcFrictionDeriv, _DoubleSlipWeakeningFrictionNoHeal.numProperties,
      _DoubleSlipWeakeningFrictionNoHeal.numStateVars, ofList, idx_vals, abs_of_nonneg]
  · exact (C22_divisors_positive (ofList []) (ofList [3, 2, 1, 2, 1, 0]) [3, 2, 1, 2, 1, 0]
      (dbToProperties_ofList 3 2 1 2 1 0 (by norm_num) (by norm_num) (by norm_num)
        (by norm_num) (by norm_num) (by norm_num))
      0 (3 / 2) 0 (-1) (ofList [0, 0])).1

theorem updateStateVars_prev (t slip slipRate normalTraction : PylithScalar)
    (stateVars properties : Nat → PylithScalar) :
    (_updateStateVars t slip slipRate normalTraction stateVars 2 properties 6).2 s_slipPrev =
      slip := by
  by_cases h : 0 ≤ slipRate <;>
    simp [_updateStateVars, _DoubleSlipWeakeningFrictionNoHeal.numProperties,
      _DoubleSlipWeakeningFrictionNoHeal.numStateVars, h, idx_vals, Function.update_apply]

theorem calcFriction_eq_of_trialSlipCum (t t2 slip slip2 slipRate slipRate2 : PylithScalar)
    (normalTraction : PylithScalar) (properties stateVars stateVars2 : Nat → PylithScalar)
    (h : trialSlipCum stateVars2 slip2 = trialSlipCum stateVars slip) :
    _calcFriction t2 slip2 slipRate2 normalTraction properties 6 stateVars2 2 =
        _calcFriction t slip slipRate normalTraction properties 6 stateVars 2 ∧
      _calcFrictionDeriv t2 slip2 slipRate2 normalTraction properties 6 stateVars2 2 =
        _calcFrictionDeriv t slip slipRate normalTraction properties 6 stateVars 2 := by
  by_cases hn : normalTraction ≤ 0
  · rw [calcFriction_compression _ _ _ _ _ _ hn, calcFriction_compression _ _ _ _ _ _ hn,
      calcFrictionDeriv_compression _ _ _ _ _ _ hn,
      calcFrictionDeriv_compression _ _ _ _ _ _ hn, h]
    exact ⟨rfl, rfl⟩
  · constructor
    · simp [_calcFriction, _DoubleSlipWeakeningFrictionNoHeal.numProperties,
        _DoubleSlipWeakeningFrictionNoHeal.numStateVars, hn]
    · simp [_calcFrictionDeriv, _DoubleSlipWeakeningFrictionNoHeal.numProperties,
        _DoubleSlipWeakeningFrictionNoHeal.numStateVars, hn]

/-- C23: for every state, accepted slip `s`, `slipRate ≥ 0`, normal traction
and property set, the stored cumulative slip after `_updateStateVars` equals
the trial `D` used before it, the trial `D` at slip `s` is the same before and
after the update, and `_calcFriction` and `_calcFrictionDeriv` at trial slip
`s` return the same values on the state after the update as on the state
before it. -/
theorem C23_advance_agrees (t slip slipRate normalTraction : PylithScalar)
    (stateVars properties : Nat → PylithScalar) (hr : 0 ≤ slipRate)
    (t2 slipRate2 normalTraction2 : PylithScalar) :
    (_updateStateVars t slip slipRate normalTraction stateVars 2 properties 6).1 = Status.ok ∧
      (_updateStateVars t slip slipRate normalTraction stateVars 2 properties 6).2 s_slipCum =
        stateVars s_slipCum + |slip - stateVars s_slipPrev| ∧
      trialSlipCum
          (_updateStateVars t slip slipRate normalTraction stateVars 2 properties 6).2 slip =
        trialSlipCum stateVars slip ∧
      _calcFriction t2 slip slipRate2 normalTraction2 properties 6
          (_updateStateVars t slip slipRate normalTraction stateVars 2 properties 6).2 2 =
        _calcFriction t2 slip slipRate2 normalTraction2 properties 6 stateVars 2 ∧
      _calcFrictionDeriv t2 slip slipRate2 normalTraction2 properties 6
          (_updateStateVars t slip slipRate normalTraction stateVars 2 properties 6).2 2 =
        _calcFrictionDeriv t2 slip slipRate2 normalTraction2 properties 6 stateVars 2 := by
  have hcum := updateStateVars_cum t slip slipRate normalTraction stateVars properties
  rw [if_pos hr] at hcum
  have hprev := updateStateVars_prev t slip slipRate normalTraction stateVars properties
  have hD : trialSlipCum
      (_updateStateVars t slip slipRate normalTraction stateVars 2 properties 6).2 slip =
      trialSlipCum stateVars slip := by
    simp only [trialSlipCum, hcum, hprev, sub_self, abs_zero, add_zero]
  have hev := calcFriction_eq_of_trialSlipCum t2 t2 slip slip slipRate2 slipRate2
    normalTraction2 properties stateVars _ hD
  refine ⟨?_, hcum, hD, hev.1, hev.2⟩
  simp [_updateStateVars, _DoubleSlipWeakeningFrictionNoHeal.numProperties,
    _DoubleSlipWeakeningFrictionNoHeal.numStateVars, hr]

/-- C23 at a concrete input: the accumulation scenario of the specification,
`{cum = 0.05, prev = 0}`, slip `0.08`, rate `1e-6`, with the properties of the
friction scenario and `normalTraction = -10`: the friction at slip `0.08` is
`3.85` before and after the update. -/
theorem C23_advance_agrees_witness :
    _calcFriction 0 0.08 0 (-10) (ofList [0.6, 0.4, 0.2, 0.1, 0.5, 0]) 6
        (ofList [0.05, 0]) 2 = some 3.85 ∧
      _calcFriction 0 0.08 0 (-10) (ofList [0.6, 0.4, 0.2, 0.1, 0.5, 0]) 6
        (_updateStateVars 0 0.08 1e-6 0 (ofList [0.05, 0]) 2
          (ofList [0.6, 0.4, 0.2, 0.1, 0.5, 0]) 6).2 2 = some 3.85 := by
  have h0 : _calcFriction 0 0.08 0 (-10) (ofList [0.6, 0.4, 0.2, 0.1, 0.5, 0]) 6
      (ofList [0.05, 0]) 2 = some 3.85 := by
    rw [calcFriction_compression _ _ _ _ _ _ (by norm_num)]
    norm_num [mu_f, trialSlipCum, ofList, idx_vals, abs_of_nonneg]
  have h := (C23_advance_agrees 0 0.08 1e-6 0 (ofList [0.05, 0])
    (ofList [0.6, 0.4, 0.2, 0.1, 0.5, 0]) (by norm_num) 0 0 (-10)).2.2.2.1
  exact ⟨h0, h.trans h0⟩

/-! ## Atomic decode -/

/-- C27: whenever `_dbToProperties` fails on a raw array, by a failed
assertion or by a thrown error, the output property array is left exactly as
it was before the call. -/
theorem C27_decode_atomic (propValues : Nat → PylithScalar) (dbValues : List PylithScalar)
    (h : (_dbToProperties propValues dbValues).1 ≠ Status.ok) :
    (_dbToProperties propValues dbValues).2 = propValues := by
  by_cases hlen : dbValues.length = 6
  · obtain ⟨a, b, c, d, e, f, rfl⟩ := length_eq_six hlen
    rw [dbToProperties_six] at h ⊢
    by_cases h1 : a ≤ 0
    · simp [h1]
    by_cases h2 : b ≤ 0
    · simp [h1, h2]
    by_cases h3 : c ≤ 0
    · simp [h1, h2, h3]
    by_cases h4 : d ≤ 0
    · simp [h1, h2, h3, h4]
    by_cases h5 : e ≤ 0
    · simp [h1, h2, h3, h4, h5]
    by_cases h6 : f < 0
    · simp [h1, h2, h3, h4, h5, h6]
    · exfalso
      simp [h1, h2, h3, h4, h5, h6] at h
  · have h6 : ¬ (6 : Int) = (dbValues.length : Int) := by
      intro h6
      exact hlen (by exact_mod_cast h6.symm)
    simp [_dbToProperties, _DoubleSlipWeakeningFrictionNoHeal.numDBProperties, h6]

/-- C27 at a concrete input: decoding `0.6, 0.4, 0.2, 0.1, 0.5, -1` (negative
cohesion, the last check) into an array holding `9, 8, 7, 6, 5, 4` throws and
leaves that array as it was. -/
theorem C27_decode_atomic_witness :
    (_dbToProperties (ofList [9, 8, 7, 6, 5, 4]) [0.6, 0.4, 0.2, 0.1, 0.5, -1]).1 =
        Status.runtime_error msg_cohesion (-1) ∧
      (_dbToProperties (ofList [9, 8, 7, 6, 5, 4]) [0.6, 0.4, 0.2, 0.1, 0.5, -1]).2 =
        ofList [9, 8, 7, 6, 5, 4] := by
  have herr : (_dbToProperties (ofList [9, 8, 7, 6, 5, 4]) [0.6, 0.4, 0.2, 0.1, 0.5, -1]).1 =
      Status.runtime_error msg_cohesion (-1) := by
    rw [dbToProperties_six]
    norm_num
  exact ⟨herr, C27_decode_atomic (ofList [9, 8, 7, 6, 5, 4]) [0.6, 0.4, 0.2, 0.1, 0.5, -1]
    (by rw [herr]; simp)⟩

end DoubleSlipWeakeningFrictionNoHeal
